import Mathlib

/-!
Verification of the alert-processing pipeline of the Water-Management-System
repository (`water_management_agents.py`), as described by its specification.

The Python source is shallowly embedded:

* JSON values produced by the external `json.loads` library call are modelled
  by the inductive type `JValue`; the library call itself is an external
  collaborator and is passed around as an oracle `loads : String → Option JValue`
  (`none` models `json.loads` raising an exception).
* The reasoning backend (`groq_client.chat.completions.create`) is an external
  collaborator; its raw text reply is passed in as a `String` parameter, and
  each embedded agent method records how many backend calls it makes.
* Python `str.split`-based extraction of fenced JSON blocks is embedded over
  `List Char` by `splitFirst`/`pySplit0`/`pySplit1`/`extractJsonPayload`.
* Sensor readings use ℚ for the float fields; `datetime` timestamps are
  opaque strings (never inspected by the embedded logic).
* Vision analysis of camera images (`process_camera_feed`, lines 58-96 and the
  `image_path` branch of `analyze_sensor_data`, lines 136-138) is not modelled:
  every scenario in the specification and the tests runs with `image_path=None`.
  The parser `_parse_vision_analysis` (lines 98-111) is modelled, as it is part
  of the gateway-fallback contract.
-/

namespace WaterManagement

/-- JSON values, the possible results of the external `json.loads` call.
Numbers are modelled as integers (all numerals occurring in the repository and
its scenarios are integral); objects are association lists with the key order
of the underlying JSON text. -/
inductive JValue where
  | jnull : JValue
  | jbool : Bool → JValue
  | jnum : Int → JValue
  | jstr : String → JValue
  | jarr : List JValue → JValue
  | jobj : List (String × JValue) → JValue

/-- Dictionary lookup: Python `d[k]` / `k in d` on a parsed JSON object. -/
def jlookup : List (String × JValue) → String → Option JValue
  | [], _ => none
  | (k, v) :: rest, key => if k = key then some v else jlookup rest key

/-- Field access on a JSON value that may not be an object (`none` if it is
not an object or lacks the key). -/
def jget (v : JValue) (key : String) : Option JValue :=
  match v with
  | JValue.jobj l => jlookup l key
  | _ => none

/-- Locate the first occurrence of `sep` in `s`: returns the text before the
occurrence and the text after it, or `none` when `sep` does not occur.
This is the primitive underlying Python `sep in s` and `s.split(sep)`. -/
def splitFirst (sep : List Char) : List Char → Option (List Char × List Char)
  | [] => if sep.isPrefixOf [] then some ([], []) else none
  | c :: rest =>
    if sep.isPrefixOf (c :: rest) then some ([], (c :: rest).drop sep.length)
    else
      match splitFirst sep rest with
      | none => none
      | some (b, a) => some (c :: b, a)

/-- Python `s.split(sep)[0]`: the text before the first occurrence of `sep`,
or all of `s` when `sep` does not occur. -/
def pySplit0 (sep s : List Char) : List Char :=
  match splitFirst sep s with
  | none => s
  | some (b, _) => b

/-- Python `s.split(sep)[1]` (meaningful only when `sep` occurs in `s`): the
text strictly between the first occurrence of `sep` and the next one, i.e.
`pySplit0` applied to what follows the first occurrence. -/
def pySplit1 (sep s : List Char) : List Char :=
  match splitFirst sep s with
  | none => []
  | some (_, a) => pySplit0 sep a

/-- The opening tag of a fenced JSON code block, Python literal "```json". -/
def tagJson : List Char := ['`', '`', '`', 'j', 's', 'o', 'n']

/-- A code fence, Python literal "```". -/
def tagFence : List Char := ['`', '`', '`']

/-- Shared extraction step of `_parse_vision_analysis` (lines 102-103),
`_parse_prediction` (lines 185-186) and `_parse_actions` (lines 280-281):

    if "```json" in content:
        content = content.split("```json")[1].split("```")[0]

When the tag "```json" occurs, take the second component of the split on
"```json" and then the first component of its split on "```"; otherwise keep
the whole reply. -/
def extractJsonPayload (content : List Char) : List Char :=
  if (splitFirst tagJson content).isSome then
    pySplit0 tagFence (pySplit1 tagJson content)
  else content

/-- String-level wrapper of `extractJsonPayload`. -/
def extractStr (s : String) : String :=
  String.mk (extractJsonPayload s.data)

/-- Alert levels, `AlertLevel` enum (lines 23-27). -/
inductive AlertLevel where
  | normal
  | warning
  | critical
  | emergency
  deriving DecidableEq, Repr

/-- Sensor reading, dataclass `WaterSensorData` (lines 29-38) minus the
unmodelled `image_path` (see the module docstring). -/
structure WaterSensorData where
  sensor_id : String
  location : String
  water_level : ℚ
  flow_rate : ℚ
  temperature : ℚ
  ph_level : ℚ
  timestamp : String

/-- Threshold `SensorMonitorAgent.alert_threshold = 85` (line 56). -/
def alert_threshold : ℚ := 85

/-- Alert-level computation of `analyze_sensor_data` (lines 116-123): three
successive conditional reassignments of `alert_level`, starting from NORMAL.

    alert_level = AlertLevel.NORMAL
    if sensor_data.water_level > self.alert_threshold: alert_level = WARNING
    if sensor_data.water_level > 95: alert_level = CRITICAL
    if sensor_data.water_level >= 100: alert_level = EMERGENCY
-/
def analyze_alert_level (water_level : ℚ) : AlertLevel :=
  let a := AlertLevel.normal
  let a := if water_level > alert_threshold then AlertLevel.warning else a
  let a := if water_level > 95 then AlertLevel.critical else a
  let a := if water_level ≥ 100 then AlertLevel.emergency else a
  a

/-- The analysis dictionary built by `analyze_sensor_data` (lines 125-133),
field for field in the order of the Python dict literal. -/
structure SensorAnalysis where
  sensor_id : String
  location : String
  alert_level : AlertLevel
  water_level : ℚ
  flow_rate : ℚ
  requires_action : Bool
  timestamp : String

/-- Mirrors `SensorMonitorAgent.analyze_sensor_data` (lines 113-140) for
readings without an attached camera image:
`requires_action = alert_level != AlertLevel.NORMAL` (line 131). -/
def analyze_sensor_data (sd : WaterSensorData) : SensorAnalysis :=
  let alert_level := analyze_alert_level sd.water_level
  ⟨sd.sensor_id, sd.location, alert_level, sd.water_level, sd.flow_rate,
    alert_level != AlertLevel.normal, sd.timestamp⟩

/-- Mirrors `SensorMonitorAgent._parse_vision_analysis` (lines 98-111): on any
exception from extraction or `json.loads` it returns the hardcoded dictionary
with `water_level: 0`, `overflow_detected: False`, `urgency: "normal"` and the
(possibly extracted) text under `raw_analysis`. -/
def _parse_vision_analysis (analysis : String) (loads : String → Option JValue) : JValue :=
  let analysis := extractStr analysis
  match loads analysis with
  | some v => v
  | none =>
    JValue.jobj [("water_level", JValue.jnum 0),
      ("overflow_detected", JValue.jbool false),
      ("urgency", JValue.jstr "normal"),
      ("raw_analysis", JValue.jstr analysis)]

/-- Mirrors `PredictionAgent._parse_prediction` (lines 182-189): on any
exception it returns `{"error": "parsing_failed", "raw": content}` where
`content` is the (possibly extracted) reply text. -/
def _parse_prediction (content : String) (loads : String → Option JValue) : JValue :=
  let content := extractStr content
  match loads content with
  | some v => v
  | none =>
    JValue.jobj [("error", JValue.jstr "parsing_failed"),
      ("raw", JValue.jstr content)]

/-- Mirrors `PredictionAgent.predict_overflow` (lines 150-180): builds a
prompt, makes exactly one backend call (lines 173-178) and parses the reply.
The returned `Nat` counts the backend calls made by this invocation. -/
def predict_overflow (reply : String) (loads : String → Option JValue) : JValue × Nat :=
  (_parse_prediction reply loads, 1)

/-- Valve action, dataclass `RedirectionAction` (lines 40-47). The Python
dataclass annotates `valve_id: str`, `percentage: int`, etc., but dataclasses
do not enforce annotations: each field holds whatever JSON value the backend
reply supplied, so the fields are `JValue`s here. -/
structure RedirectionAction where
  valve_id : JValue
  action : JValue
  percentage : JValue
  destination : JValue
  priority : JValue
  reason : JValue

/-- One element of the comprehension in `_parse_actions` (lines 287-297):

    RedirectionAction(valve_id=a["valve_id"], action=a["action"],
        percentage=a["percentage"], destination=a["destination"],
        priority=a.get("priority", 5), reason=a["reason"])

Indexing a non-dict raises `TypeError`, a missing key raises `KeyError`; both
are modelled by `none` (they abort the whole comprehension, see
`parse_action_list`). Only `priority` is optional, defaulting to `5`. -/
def parse_action_item (a : JValue) : Option RedirectionAction :=
  match a with
  | JValue.jobj l =>
    match jlookup l "valve_id", jlookup l "action", jlookup l "percentage",
        jlookup l "destination", jlookup l "reason" with
    | some v, some ac, some p, some d, some r =>
      some ⟨v, ac, p, d, (jlookup l "priority").getD (JValue.jnum 5), r⟩
    | _, _, _, _, _ => none
  | _ => none

/-- The list comprehension of `_parse_actions` (lines 287-297): it is
all-or-nothing, because an exception on any element propagates out of the
whole comprehension into the `except` handler. -/
def parse_action_list : List JValue → Option (List RedirectionAction)
  | [] => some []
  | a :: rest =>
    match parse_action_item a, parse_action_list rest with
    | some x, some xs => some (x :: xs)
    | _, _ => none

/-- Python iteration `for a in actions_data` over a parsed JSON value:
arrays yield their elements, dicts yield their keys (as strings), strings
yield their characters; numbers, booleans and null raise `TypeError`
(modelled by `none`). -/
def pyIter (v : JValue) : Option (List JValue) :=
  match v with
  | JValue.jarr l => some l
  | JValue.jobj l => some (l.map fun kv => JValue.jstr kv.1)
  | JValue.jstr s => some (s.data.map fun c => JValue.jstr (String.mk [c]))
  | _ => none

/-- Body of `_parse_actions` after `json.loads` succeeded (lines 284-297):

    if isinstance(actions_data, dict) and "actions" in actions_data:
        actions_data = actions_data["actions"]
    return [RedirectionAction(...) for a in actions_data]

Any exception (non-iterable value, non-dict element, missing required key)
falls into the `except` handler, which returns `[]` (lines 298-300). -/
def parse_actions_data (v : JValue) : List RedirectionAction :=
  let v := match v with
    | JValue.jobj l =>
      match jlookup l "actions" with
      | some inner => inner
      | none => JValue.jobj l
    | _ => v
  match pyIter v with
  | none => []
  | some items =>
    match parse_action_list items with
    | none => []
    | some acts => acts

/-- Mirrors `RedirectionControllerAgent._parse_actions` (lines 277-300):
extraction, `json.loads` (the `loads` oracle; `none` models a raised
exception, handled by `except` returning `[]`), then `parse_actions_data`. -/
def _parse_actions (content : String) (loads : String → Option JValue) : List RedirectionAction :=
  let content := extractStr content
  match loads content with
  | none => []
  | some v => parse_actions_data v

/-- Mirrors `RedirectionControllerAgent.calculate_redirection` (lines
236-275): builds a prompt, makes exactly one backend call (lines 267-272) and
parses the reply with `_parse_actions`. The `Nat` counts backend calls. -/
def calculate_redirection (reply : String) (loads : String → Option JValue) :
    List RedirectionAction × Nat :=
  (_parse_actions reply loads, 1)

/-- The hardcoded destination inventory of `process_overflow_scenario`
(lines 389-393), as `(id, type, capacity_remaining)` triples. The source
passes it only into the planning prompt text; `_parse_actions` never
consults it. -/
def available_destinations : List (String × String × Int) :=
  [("tank_drinking_1", "drinking_water", 5000),
   ("reservoir_agri_2", "agriculture", 15000),
   ("recharge_pit_3", "groundwater", 8000)]

/-- Mirrors `MCPIntegrationAgent.get_weather_forecast` (lines 311-320), which
returns a fixed simulated forecast. -/
def get_weather_forecast (location : String) : JValue :=
  JValue.jobj [("location", JValue.jstr location),
    ("rainfall_forecast_mm",
      JValue.jarr [JValue.jnum 5, JValue.jnum 12, JValue.jnum 8,
        JValue.jnum 2, JValue.jnum 0, JValue.jnum 0]),
    ("temperature", JValue.jnum 28),
    ("humidity", JValue.jnum 75),
    ("forecast_period", JValue.jstr "next_24h")]

/-- Observable effects of one `process_overflow_scenario` run: how often each
external collaborator was invoked, the outward valve commands in order
(`MCPIntegrationAgent.control_valve` receives `(valve_id, action, percentage)`,
lines 322-335 and 401-406), and the returned report fields (lines 430-434). -/
structure WorkflowTrace where
  sensor_analysis : SensorAnalysis
  weather : JValue
  forecast_calls : Nat
  prediction : JValue
  prediction_calls : Nat
  planning_calls : Nat
  valve_commands : List (JValue × JValue × JValue)
  notification_calls : Nat
  db_update_calls : Nat
  actions_taken : List RedirectionAction

/-- Mirrors `OrchestratorAgent.process_overflow_scenario` (lines 360-434):

* Step 1 analyses the sensor data;
* Step 2 always fetches the weather forecast (line 375);
* Step 3 always runs the prediction agent (line 380);
* Steps 4-7 (planning, one `control_valve` call per parsed action in order,
  one notification, one database update) run only when
  `sensor_analysis['requires_action']` (line 386);
* the returned report carries `actions_taken` (empty when no action was
  required, line 433).

`predReply` and `planReply` are the raw backend replies consumed by the
prediction and planning calls; `loads` is the external `json.loads` oracle. -/
def process_overflow_scenario (sd : WaterSensorData) (predReply planReply : String)
    (loads : String → Option JValue) : WorkflowTrace :=
  let sensor_analysis := analyze_sensor_data sd
  let weather := get_weather_forecast sd.location
  let pred := predict_overflow predReply loads
  if sensor_analysis.requires_action then
    let plan := calculate_redirection planReply loads
    ⟨sensor_analysis, weather, 1, pred.1, pred.2, plan.2,
      plan.1.map (fun a => (a.valve_id, a.action, a.percentage)),
      1, 1, plan.1⟩
  else
    ⟨sensor_analysis, weather, 1, pred.1, pred.2, 0, [], 0, 0, []⟩

/-! Concrete backend replies and parsed actions used as test inputs below. -/

/-- A well-formed planning action dict whose values violate every
post-validation rule the specification promises: percentage 150 (out of
range, and `open` should force 100), destination `unknown_dest` (not in
`available_destinations`), priority 7. -/
def c3_fields1 : List (String × JValue) :=
  [("valve_id", JValue.jstr "V1"), ("action", JValue.jstr "open"),
   ("percentage", JValue.jnum 150), ("destination", JValue.jstr "unknown_dest"),
   ("priority", JValue.jnum 7), ("reason", JValue.jstr "llm says so")]

/-- A second action dict for the same valve `V1`: a `close` with nonzero
percentage 50 and a lower priority number than `c3_fields1`. -/
def c3_fields2 : List (String × JValue) :=
  [("valve_id", JValue.jstr "V1"), ("action", JValue.jstr "close"),
   ("percentage", JValue.jnum 50), ("destination", JValue.jstr "river"),
   ("priority", JValue.jnum 2), ("reason", JValue.jstr "llm says so")]

/-- The `RedirectionAction` the code builds from `c3_fields1`. -/
def c3_act1 : RedirectionAction :=
  ⟨JValue.jstr "V1", JValue.jstr "open", JValue.jnum 150,
   JValue.jstr "unknown_dest", JValue.jnum 7, JValue.jstr "llm says so"⟩

/-- The `RedirectionAction` the code builds from `c3_fields2`. -/
def c3_act2 : RedirectionAction :=
  ⟨JValue.jstr "V1", JValue.jstr "close", JValue.jnum 50,
   JValue.jstr "river", JValue.jnum 2, JValue.jstr "llm says so"⟩

/-- A single well-formed planning action dict, repeated twice in the reply
used for the idempotence claim. -/
def c7_fields : List (String × JValue) :=
  [("valve_id", JValue.jstr "V1"), ("action", JValue.jstr "open"),
   ("percentage", JValue.jnum 100), ("destination", JValue.jstr "tank_drinking_1"),
   ("priority", JValue.jnum 1), ("reason", JValue.jstr "divert")]

/-- The `RedirectionAction` the code builds from `c7_fields`. -/
def c7_act : RedirectionAction :=
  ⟨JValue.jstr "V1", JValue.jstr "open", JValue.jnum 100,
   JValue.jstr "tank_drinking_1", JValue.jnum 1, JValue.jstr "divert"⟩

/-- An action dict with all five required keys and no `priority` key. -/
def c10_good_fields : List (String × JValue) :=
  [("valve_id", JValue.jstr "V9"), ("action", JValue.jstr "partial"),
   ("percentage", JValue.jnum 40), ("destination", JValue.jstr "reservoir_agri_2"),
   ("reason", JValue.jstr "split flow")]

/-- An action dict missing the required keys `action`, `percentage`,
`destination` and `reason`. -/
def c10_bad : JValue := JValue.jobj [("valve_id", JValue.jstr "V8")]

/-- The `RedirectionAction` the code builds from `c10_good_fields`
(priority defaulted to 5). -/
def c10_good_act : RedirectionAction :=
  ⟨JValue.jstr "V9", JValue.jstr "partial", JValue.jnum 40,
   JValue.jstr "reservoir_agri_2", JValue.jnum 5, JValue.jstr "split flow"⟩

/-! Helper lemmas about `splitFirst`, the parsers and the classifier. -/

lemma isPrefixOf_append_self (xs ys : List Char) : xs.isPrefixOf (xs ++ ys) = true := by
  induction xs with
  | nil => simp [List.isPrefixOf]
  | cons a as ih => simp [List.isPrefixOf, ih]

lemma splitFirst_of_isPrefixOf (sep s : List Char) (h : sep.isPrefixOf s = true) :
    splitFirst sep s = some ([], s.drop sep.length) := by
  cases s <;> simp [splitFirst, h]

lemma splitFirst_append_self (sep r : List Char) :
    splitFirst sep (sep ++ r) = some ([], r) := by
  rw [splitFirst_of_isPrefixOf _ _ (isPrefixOf_append_self sep r), List.drop_left]

lemma splitFirst_cons_ne (h : Char) (t : List Char) (c : Char) (rest : List Char)
    (hne : c ≠ h) :
    splitFirst (h :: t) (c :: rest) =
      (splitFirst (h :: t) rest).map fun p => (c :: p.1, p.2) := by
  have hb : ((h :: t).isPrefixOf (c :: rest)) = false := by
    simp [List.isPrefixOf, beq_eq_false_iff_ne, Ne.symm hne]
  cases hsf : splitFirst (h :: t) rest with
  | none => simp [splitFirst, hb, hsf]
  | some p => obtain ⟨b, a⟩ := p; simp [splitFirst, hb, hsf]

/-- When no character of `pre` equals the head of the separator, the first
occurrence of the separator in `pre ++ s` lies entirely within `s`. -/
lemma splitFirst_append_no_head (h : Char) (t : List Char) (pre s : List Char)
    (hpre : ∀ c ∈ pre, c ≠ h) :
    splitFirst (h :: t) (pre ++ s) =
      (splitFirst (h :: t) s).map fun p => (pre ++ p.1, p.2) := by
  induction pre with
  | nil =>
    simp only [List.nil_append]
    cases hsf : splitFirst (h :: t) s <;> simp [hsf]
  | cons c pre ih =>
    have hc : c ≠ h := hpre c (by simp)
    rw [List.cons_append, splitFirst_cons_ne h t c _ hc,
        ih (fun d hd => hpre d (by simp [hd]))]
    cases splitFirst (h :: t) s <;> simp

/-- The comprehension aborts as soon as any element fails: one bad element
makes the whole parsed list `none`. -/
lemma parse_action_list_eq_none {items : List JValue}
    (h : ∃ i ∈ items, parse_action_item i = none) :
    parse_action_list items = none := by
  induction items with
  | nil => simp at h
  | cons a rest ih =>
    obtain ⟨i, hi, hnone⟩ := h
    rcases List.mem_cons.mp hi with h1 | h1
    · subst h1
      simp [parse_action_list, hnone]
    · have hrest := ih ⟨i, h1, hnone⟩
      cases hpa : parse_action_item a <;> simp [parse_action_list, hpa, hrest]

/-- In the analysis dictionary, `requires_action` is by construction the
test `alert_level != AlertLevel.NORMAL` (source line 131). -/
lemma requires_action_eq (sd : WaterSensorData) :
    (analyze_sensor_data sd).requires_action =
      ((analyze_sensor_data sd).alert_level != AlertLevel.normal) := rfl

/-! Claim theorems. -/

/-- Claim C1, counterexample. The claim states that when the planning reply
fails entirely, the planner still returns at least one fallback action (100%
open towards the highest-priority destination with capacity, reason
"fallback: reasoning unavailable") and that a Critical/Emergency run never
ends with zero actions. On the code, a water level of 97 classifies as
Critical, an unparsable planning reply makes `_parse_actions` return `[]`,
and the workflow run ends with an empty `actions_taken` list. -/
theorem planner_no_fallback_on_parse_failure_cex :
    (analyze_sensor_data
        ⟨"WS_TANK_001", "Sector 12", 97, 450, 26, 7, "t0"⟩).alert_level
      = AlertLevel.critical ∧
    _parse_actions "I cannot produce JSON right now." (fun _ => none) = [] ∧
    (process_overflow_scenario
        ⟨"WS_TANK_001", "Sector 12", 97, 450, 26, 7, "t0"⟩
        "pred reply" "I cannot produce JSON right now." (fun _ => none)).actions_taken
      = [] := by
  refine ⟨by decide, rfl, rfl⟩

/-- Claim C1, amended: for every Critical or Emergency alert whose planning
reply fails to parse, the planner is invoked (one backend call) but returns
the empty action list, and the workflow ends the run with zero actions; no
fallback action is generated. -/
theorem critical_run_with_unparsable_plan_has_zero_actions
    (sd : WaterSensorData) (predReply planReply : String)
    (loads : String → Option JValue)
    (h1 : (analyze_sensor_data sd).alert_level = AlertLevel.critical ∨
          (analyze_sensor_data sd).alert_level = AlertLevel.emergency)
    (h2 : loads (extractStr planReply) = none) :
    (process_overflow_scenario sd predReply planReply loads).actions_taken = [] ∧
    (process_overflow_scenario sd predReply planReply loads).planning_calls = 1 := by
  have hra : (analyze_sensor_data sd).requires_action = true := by
    rw [requires_action_eq]
    rcases h1 with h | h <;> rw [h] <;> rfl
  have hpa : _parse_actions planReply loads = [] := by
    simp [_parse_actions, h2]
  constructor <;>
    simp [process_overflow_scenario, hra, calculate_redirection, hpa]

/-- Claim C1, witness for the amended theorem at a concrete Critical run. -/
theorem critical_run_with_unparsable_plan_has_zero_actions_witness :
    (process_overflow_scenario ⟨"WS_2", "Loc", 98, 100, 25, 7, "t1"⟩
        "pr" "pl" (fun _ => none)).actions_taken = [] ∧
    (process_overflow_scenario ⟨"WS_2", "Loc", 98, 100, 25, 7, "t1"⟩
        "pr" "pl" (fun _ => none)).planning_calls = 1 :=
  critical_run_with_unparsable_plan_has_zero_actions _ _ _ _
    (Or.inl (by decide)) rfl

/-- Claim C2, evaluation of the code at the failing inputs. The claim (like
the repository's own test `test_agents.py`, which expects `'critical'` for a
reading of 95.0) says the boundary values 85 and 95 map to Warning and
Critical. The code uses strict comparisons `> 85` and `> 95` (lines
118-121), so 95 maps to Warning and 85 maps to Normal; only the
100 ↦ Emergency boundary (`>= 100`, line 122) agrees with the claim. -/
theorem classification_boundary_eval :
    (analyze_sensor_data ⟨"TEST_001", "Test Tank", 95, 500, 25, 7, "t2"⟩).alert_level
      = AlertLevel.warning ∧
    (analyze_sensor_data ⟨"S_85", "Loc", 85, 0, 25, 7, "t3"⟩).alert_level
      = AlertLevel.normal ∧
    (analyze_sensor_data ⟨"S_100", "Loc", 100, 0, 25, 7, "t4"⟩).alert_level
      = AlertLevel.emergency := by
  refine ⟨by decide, by decide, by decide⟩

/-- Claim C3, counterexample. The claim promises post-validation of the
planner output: percentages clamped to [0,100] and coerced to 0/100 for
close/open, unknown destinations discarded, duplicate valves dropped, output
sorted by priority. The code performs none of this: a successfully parsed
reply is returned verbatim, here with percentage 150 on an `open` action,
a `close` action at percentage 50, a destination absent from
`available_destinations`, the same valve `V1` twice, and priorities in
descending order 7, 2. -/
theorem parse_actions_no_postvalidation_cex :
    _parse_actions "backend reply"
        (fun _ => some (JValue.jarr [JValue.jobj c3_fields1, JValue.jobj c3_fields2]))
      = [c3_act1, c3_act2] ∧
    c3_act1.percentage = JValue.jnum 150 ∧
    c3_act1.action = JValue.jstr "open" ∧
    c3_act2.action = JValue.jstr "close" ∧
    c3_act2.percentage = JValue.jnum 50 ∧
    c3_act1.valve_id = c3_act2.valve_id ∧
    c3_act1.priority = JValue.jnum 7 ∧
    c3_act2.priority = JValue.jnum 2 ∧
    (available_destinations.map fun d => d.1).contains "unknown_dest" = false := by
  exact ⟨rfl, rfl, rfl, rfl, rfl, rfl, rfl, rfl, rfl⟩

/-- Claim C3, amended: the planner applies no post-validation at all. Any
reply that parses to a JSON array whose elements all carry the required keys
is converted element by element and returned exactly as parsed — percentages
unclamped and uncoerced, unknown destinations kept, duplicate valve ids kept,
original order preserved (only a missing `priority` defaults to 5). -/
theorem parse_actions_returns_parsed_list_verbatim
    (content : String) (loads : String → Option JValue)
    (items : List JValue) (acts : List RedirectionAction)
    (h1 : loads (extractStr content) = some (JValue.jarr items))
    (h2 : parse_action_list items = some acts) :
    _parse_actions content loads = acts := by
  simp [_parse_actions, h1, parse_actions_data, pyIter, h2]

/-- Claim C3, witness: the amended theorem applied to the two-action reply
of the counterexample. -/
theorem parse_actions_returns_parsed_list_verbatim_witness :
    _parse_actions "backend reply two"
        (fun _ => some (JValue.jarr [JValue.jobj c3_fields1, JValue.jobj c3_fields2]))
      = [c3_act1, c3_act2] :=
  parse_actions_returns_parsed_list_verbatim _ _ _ _ rfl rfl

/-- Claim C4, counterexample. The claim states that on a prediction parse
failure the stage returns a `RiskEstimate` whose three horizon probabilities
equal a conservative default chosen from the current alert level (1.0 for
Critical) and whose `degraded` flag is true. On the code, with a Critical
reading (water level 96) and an unparsable prediction reply,
`_parse_prediction` returns `{"error": "parsing_failed", "raw": <text>}`:
the result has no probability fields at all and no `degraded` flag, and the
alert level is not even an input of the fallback. -/
theorem prediction_fallback_shape_cex :
    (analyze_sensor_data ⟨"WS_4", "Loc", 96, 450, 26, 7, "t5"⟩).alert_level
      = AlertLevel.critical ∧
    _parse_prediction "The risk is hard to say." (fun _ => none)
      = JValue.jobj [("error", JValue.jstr "parsing_failed"),
          ("raw", JValue.jstr "The risk is hard to say.")] ∧
    jget (_parse_prediction "The risk is hard to say." (fun _ => none))
        "overflow_probability_6h" = none ∧
    jget (_parse_prediction "The risk is hard to say." (fun _ => none))
        "overflow_probability_12h" = none ∧
    jget (_parse_prediction "The risk is hard to say." (fun _ => none))
        "overflow_probability_24h" = none ∧
    jget (_parse_prediction "The risk is hard to say." (fun _ => none))
        "degraded" = none := by
  exact ⟨by decide, rfl, rfl, rfl, rfl, rfl⟩

/-- Claim C4, amended: on a prediction parse failure, `_parse_prediction`
returns the dictionary `{"error": "parsing_failed", "raw": <extracted reply
text>}`, which carries no horizon-probability fields and no degraded flag,
independently of the current alert level. -/
theorem prediction_parse_failure_returns_error_dict
    (content : String) (loads : String → Option JValue)
    (h : loads (extractStr content) = none) :
    _parse_prediction content loads
      = JValue.jobj [("error", JValue.jstr "parsing_failed"),
          ("raw", JValue.jstr (extractStr content))] ∧
    jget (_parse_prediction content loads) "overflow_probability_6h" = none ∧
    jget (_parse_prediction content loads) "overflow_probability_12h" = none ∧
    jget (_parse_prediction content loads) "overflow_probability_24h" = none ∧
    jget (_parse_prediction content loads) "degraded" = none := by
  have h1 : _parse_prediction content loads
      = JValue.jobj [("error", JValue.jstr "parsing_failed"),
          ("raw", JValue.jstr (extractStr content))] := by
    simp [_parse_prediction, h]
  refine ⟨h1, ?_, ?_, ?_, ?_⟩ <;> rw [h1] <;> rfl

/-- Claim C4, witness for the amended theorem at a concrete failing reply. -/
theorem prediction_parse_failure_returns_error_dict_witness :
    _parse_prediction "cannot answer" (fun _ => none)
      = JValue.jobj [("error", JValue.jstr "parsing_failed"),
          ("raw", JValue.jstr (extractStr "cannot answer"))] ∧
    jget (_parse_prediction "cannot answer" (fun _ => none))
        "overflow_probability_6h" = none ∧
    jget (_parse_prediction "cannot answer" (fun _ => none))
        "overflow_probability_12h" = none ∧
    jget (_parse_prediction "cannot answer" (fun _ => none))
        "overflow_probability_24h" = none ∧
    jget (_parse_prediction "cannot answer" (fun _ => none)) "degraded" = none :=
  prediction_parse_failure_returns_error_dict "cannot answer" (fun _ => none) rfl

/-- Claim C5, counterexample. The claim states that a gateway invocation
whose first reply fails to parse retries exactly once (hence two backend
calls) and that the failure result carries the raw reply text with no
fabricated numeric values. On the code, with an unparsable reply: the
prediction and planning invocations each make exactly one backend call (not
two); the planning fallback is the empty list, which carries no raw text;
and the vision fallback fabricates the numeric value `water_level: 0`. -/
theorem gateway_single_call_cex :
    (predict_overflow "no json at all" (fun _ => none)).2 = 1 ∧
    ¬ (predict_overflow "no json at all" (fun _ => none)).2 = 2 ∧
    (calculate_redirection "no json at all" (fun _ => none)).2 = 1 ∧
    ¬ (calculate_redirection "no json at all" (fun _ => none)).2 = 2 ∧
    (calculate_redirection "no json at all" (fun _ => none)).1 = [] ∧
    jget (_parse_vision_analysis "no json at all" (fun _ => none)) "water_level"
      = some (JValue.jnum 0) := by
  exact ⟨rfl, by decide, rfl, by decide, rfl, rfl⟩

/-- Claim C5, amended: no retry exists — every gateway invocation makes
exactly one backend call, and on a parse failure the per-agent handler
immediately returns its hardcoded fallback: the planning parser returns the
empty list (which does not carry the reply text), the prediction parser
returns an error dictionary carrying the extracted reply text, and the
vision parser returns a default dictionary that fabricates
`water_level: 0`, `overflow_detected: False` and `urgency: "normal"`
alongside the extracted reply text. -/
theorem gateway_single_call_and_fallbacks
    (reply : String) (loads : String → Option JValue)
    (h : loads (extractStr reply) = none) :
    (predict_overflow reply loads).2 = 1 ∧
    (calculate_redirection reply loads).2 = 1 ∧
    (calculate_redirection reply loads).1 = [] ∧
    _parse_prediction reply loads
      = JValue.jobj [("error", JValue.jstr "parsing_failed"),
          ("raw", JValue.jstr (extractStr reply))] ∧
    _parse_vision_analysis reply loads
      = JValue.jobj [("water_level", JValue.jnum 0),
          ("overflow_detected", JValue.jbool false),
          ("urgency", JValue.jstr "normal"),
          ("raw_analysis", JValue.jstr (extractStr reply))] := by
  refine ⟨rfl, rfl, ?_, ?_, ?_⟩ <;>
    simp [calculate_redirection, _parse_actions, _parse_prediction,
      _parse_vision_analysis, h]

/-- Claim C5, witness for the amended theorem at a concrete failing reply. -/
theorem gateway_single_call_and_fallbacks_witness :
    (predict_overflow "still not json" (fun _ => none)).2 = 1 ∧
    (calculate_redirection "still not json" (fun _ => none)).2 = 1 ∧
    (calculate_redirection "still not json" (fun _ => none)).1 = [] ∧
    _parse_prediction "still not json" (fun _ => none)
      = JValue.jobj [("error", JValue.jstr "parsing_failed"),
          ("raw", JValue.jstr (extractStr "still not json"))] ∧
    _parse_vision_analysis "still not json" (fun _ => none)
      = JValue.jobj [("water_level", JValue.jnum 0),
          ("overflow_detected", JValue.jbool false),
          ("urgency", JValue.jstr "normal"),
          ("raw_analysis", JValue.jstr (extractStr "still not json"))] :=
  gateway_single_call_and_fallbacks "still not json" (fun _ => none) rfl

/-- Claim C6, counterexample. The claim states that for a Normal reading the
workflow performs no forecast or prediction work. On the code, a reading
with water level 30 classifies as Normal, yet the run still makes one
forecast fetch and one prediction backend call (steps 2 and 3 run before the
`requires_action` test); only the action list is empty. -/
theorem normal_reading_still_predicts_cex :
    (analyze_sensor_data ⟨"WS_6", "Loc", 30, 100, 25, 7, "t6"⟩).alert_level
      = AlertLevel.normal ∧
    (process_overflow_scenario ⟨"WS_6", "Loc", 30, 100, 25, 7, "t6"⟩ "p" "q"
        (fun _ => none)).forecast_calls = 1 ∧
    (process_overflow_scenario ⟨"WS_6", "Loc", 30, 100, 25, 7, "t6"⟩ "p" "q"
        (fun _ => none)).prediction_calls = 1 ∧
    (process_overflow_scenario ⟨"WS_6", "Loc", 30, 100, 25, 7, "t6"⟩ "p" "q"
        (fun _ => none)).actions_taken = [] := by
  exact ⟨by decide, rfl, rfl, rfl⟩

/-- Claim C6, amended: for every Normal reading the run ends with an empty
action list and performs no planning, actuation, notification or database
work — but the forecast and prediction stages are still invoked exactly
once each. -/
theorem normal_reading_skips_planning_but_not_prediction
    (sd : WaterSensorData) (predReply planReply : String)
    (loads : String → Option JValue)
    (h : (analyze_sensor_data sd).alert_level = AlertLevel.normal) :
    (process_overflow_scenario sd predReply planReply loads).actions_taken = [] ∧
    (process_overflow_scenario sd predReply planReply loads).planning_calls = 0 ∧
    (process_overflow_scenario sd predReply planReply loads).valve_commands = [] ∧
    (process_overflow_scenario sd predReply planReply loads).notification_calls = 0 ∧
    (process_overflow_scenario sd predReply planReply loads).db_update_calls = 0 ∧
    (process_overflow_scenario sd predReply planReply loads).forecast_calls = 1 ∧
    (process_overflow_scenario sd predReply planReply loads).prediction_calls = 1 := by
  have hra : (analyze_sensor_data sd).requires_action = false := by
    rw [requires_action_eq, h]; rfl
  refine ⟨?_, ?_, ?_, ?_, ?_, ?_, ?_⟩ <;>
    simp [process_overflow_scenario, hra, predict_overflow]

/-- Claim C6, witness for the amended theorem at the Scenario B reading. -/
theorem normal_reading_skips_planning_but_not_prediction_witness :
    (process_overflow_scenario ⟨"WS_6b", "Loc", 30, 100, 25, 7, "t6"⟩ "p" "q"
        (fun _ => none)).actions_taken = [] ∧
    (process_overflow_scenario ⟨"WS_6b", "Loc", 30, 100, 25, 7, "t6"⟩ "p" "q"
        (fun _ => none)).planning_calls = 0 ∧
    (process_overflow_scenario ⟨"WS_6b", "Loc", 30, 100, 25, 7, "t6"⟩ "p" "q"
        (fun _ => none)).valve_commands = [] ∧
    (process_overflow_scenario ⟨"WS_6b", "Loc", 30, 100, 25, 7, "t6"⟩ "p" "q"
        (fun _ => none)).notification_calls = 0 ∧
    (process_overflow_scenario ⟨"WS_6b", "Loc", 30, 100, 25, 7, "t6"⟩ "p" "q"
        (fun _ => none)).db_update_calls = 0 ∧
    (process_overflow_scenario ⟨"WS_6b", "Loc", 30, 100, 25, 7, "t6"⟩ "p" "q"
        (fun _ => none)).forecast_calls = 1 ∧
    (process_overflow_scenario ⟨"WS_6b", "Loc", 30, 100, 25, 7, "t6"⟩ "p" "q"
        (fun _ => none)).prediction_calls = 1 :=
  normal_reading_skips_planning_but_not_prediction _ _ _ _ (by decide)

/-- Claim C7, counterexample. The claim states that executing a list
containing the same `(valve_id, action, percentage, destination)` tuple twice
produces exactly one outward command, the second occurrence being skipped by
a per-valve cache. On the code there is no cache: a Warning-level run whose
plan parses to the identical action twice issues two identical
`control_valve` commands. -/
theorem duplicate_action_two_commands_cex :
    (process_overflow_scenario ⟨"WS_7", "Loc", 90, 200, 25, 7, "t7"⟩ "p" "dup"
        (fun _ => some (JValue.jarr [JValue.jobj c7_fields, JValue.jobj c7_fields]))).actions_taken
      = [c7_act, c7_act] ∧
    (process_overflow_scenario ⟨"WS_7", "Loc", 90, 200, 25, 7, "t7"⟩ "p" "dup"
        (fun _ => some (JValue.jarr [JValue.jobj c7_fields, JValue.jobj c7_fields]))).valve_commands
      = [(JValue.jstr "V1", JValue.jstr "open", JValue.jnum 100),
         (JValue.jstr "V1", JValue.jstr "open", JValue.jnum 100)] ∧
    (process_overflow_scenario ⟨"WS_7", "Loc", 90, 200, 25, 7, "t7"⟩ "p" "dup"
        (fun _ => some (JValue.jarr [JValue.jobj c7_fields, JValue.jobj c7_fields]))).valve_commands.length
      = 2 := by
  exact ⟨rfl, rfl, rfl⟩

/-- Claim C7, amended: the execution loop issues exactly one outward
`control_valve` command per action occurrence, in order — the command list is
the per-action image of the executed action list, so a duplicated action
yields two identical outward commands and there is no idempotence cache. -/
theorem each_action_issues_one_command
    (sd : WaterSensorData) (predReply planReply : String)
    (loads : String → Option JValue)
    (h : (analyze_sensor_data sd).requires_action = true) :
    (process_overflow_scenario sd predReply planReply loads).valve_commands
      = (process_overflow_scenario sd predReply planReply loads).actions_taken.map
          (fun a => (a.valve_id, a.action, a.percentage)) ∧
    (process_overflow_scenario sd predReply planReply loads).valve_commands.length
      = (process_overflow_scenario sd predReply planReply loads).actions_taken.length := by
  constructor <;> simp [process_overflow_scenario, h]

/-- Claim C7, witness for the amended theorem at the duplicated-action run. -/
theorem each_action_issues_one_command_witness :
    (process_overflow_scenario ⟨"WS_7b", "Loc", 90, 200, 25, 7, "t7"⟩ "p" "dup"
        (fun _ => some (JValue.jarr [JValue.jobj c7_fields, JValue.jobj c7_fields]))).valve_commands
      = (process_overflow_scenario ⟨"WS_7b", "Loc", 90, 200, 25, 7, "t7"⟩ "p" "dup"
          (fun _ => some (JValue.jarr [JValue.jobj c7_fields, JValue.jobj c7_fields]))).actions_taken.map
          (fun a => (a.valve_id, a.action, a.percentage)) ∧
    (process_overflow_scenario ⟨"WS_7b", "Loc", 90, 200, 25, 7, "t7"⟩ "p" "dup"
        (fun _ => some (JValue.jarr [JValue.jobj c7_fields, JValue.jobj c7_fields]))).valve_commands.length
      = (process_overflow_scenario ⟨"WS_7b", "Loc", 90, 200, 25, 7, "t7"⟩ "p" "dup"
          (fun _ => some (JValue.jarr [JValue.jobj c7_fields, JValue.jobj c7_fields]))).actions_taken.length :=
  each_action_issues_one_command _ _ _ _ (by decide)

/-- Claim C8, counterexample. The claim (spec Scenario A) says the reading
with water level 92.5 and flow rate 450 classifies as Critical. On the code,
92.5 is not above the Critical threshold (`> 95`, line 120), so the alert
level is not Critical. -/
theorem scenario_a_not_critical_cex :
    (analyze_sensor_data ⟨"WS_TANK_001", "Community Tank - Sector 12, Jaipur",
        92.5, 450, 26.5, 7.2, "t8"⟩).alert_level ≠ AlertLevel.critical := by
  norm_num [analyze_sensor_data, analyze_alert_level, alert_threshold]
  decide

/-- Claim C8, amended: the reading with water level 92.5 and flow rate 450
classifies as Warning, with `requires_action = true`. -/
theorem scenario_a_warning_requires_action :
    (analyze_sensor_data ⟨"WS_TANK_001", "Community Tank - Sector 12, Jaipur",
        92.5, 450, 26.5, 7.2, "t8"⟩).alert_level = AlertLevel.warning ∧
    (analyze_sensor_data ⟨"WS_TANK_001", "Community Tank - Sector 12, Jaipur",
        92.5, 450, 26.5, 7.2, "t8"⟩).requires_action = true := by
  constructor
  · norm_num [analyze_sensor_data, analyze_alert_level, alert_threshold]
  · norm_num [analyze_sensor_data, analyze_alert_level, alert_threshold]
    decide

/-- Claim C9, confirmed: the extraction step selects the inner content of
the fenced JSON code block when one is present, and otherwise keeps the
whole reply. Concretely: for a reply of the shape
`pre ++ "```json" ++ inner ++ "```" ++ post` whose prefix and inner content
contain no backtick (so the exhibited block is the first fenced block) and
where no further "```json" tag starts at the closing fence, extraction
returns exactly `inner`; and for a reply with no "```json" occurrence at
all, extraction returns the reply unchanged. -/
theorem extract_json_block (s pre inner post : List Char)
    (h1 : ∀ c ∈ pre, c ≠ '`') (h2 : ∀ c ∈ inner, c ≠ '`')
    (h3 : splitFirst tagJson (tagFence ++ post) = none) :
    extractJsonPayload (pre ++ (tagJson ++ (inner ++ (tagFence ++ post)))) = inner ∧
    (splitFirst tagJson s = none → extractJsonPayload s = s) := by
  have htj : tagJson = '`' :: ['`', '`', 'j', 's', 'o', 'n'] := rfl
  have htf : tagFence = '`' :: ['`', '`'] := rfl
  constructor
  · have e1 : splitFirst tagJson (pre ++ (tagJson ++ (inner ++ (tagFence ++ post))))
        = some (pre, inner ++ (tagFence ++ post)) := by
      rw [htj, splitFirst_append_no_head _ _ _ _ h1, splitFirst_append_self]
      simp
    have e2 : splitFirst tagJson (inner ++ (tagFence ++ post)) = none := by
      rw [htj] at h3 ⊢
      rw [splitFirst_append_no_head _ _ _ _ h2, h3]
      rfl
    have e3 : splitFirst tagFence (inner ++ (tagFence ++ post))
        = some (inner, post) := by
      rw [htf, splitFirst_append_no_head _ _ _ _ h2, splitFirst_append_self]
      simp
    simp [extractJsonPayload, pySplit1, pySplit0, e1, e2, e3]
  · intro h
    simp [extractJsonPayload, h]

/-- Claim C9, witness: a reply with prose around a fenced JSON block yields
the inner content of the block, and a reply without a fenced block is kept
whole. -/
theorem extract_json_block_witness :
    extractJsonPayload ("Here you go: ".data ++ (tagJson ++ (" 42 ".data ++
        (tagFence ++ " hope this helps".data)))) = " 42 ".data ∧
    extractJsonPayload "plain text with no fence".data
      = "plain text with no fence".data :=
  ⟨(extract_json_block [] "Here you go: ".data " 42 ".data " hope this helps".data
      (by decide) (by decide) (by decide)).1,
   (extract_json_block "plain text with no fence".data [] [] []
      (by decide) (by decide) (by decide)).2 (by decide)⟩

/-- Claim C10, confirmed: parsing of a planning reply is all-or-nothing.
If the parsed JSON is an array and any element lacks one of the required
keys (or is not an object), the whole result is `[]`, discarding the
well-formed elements; a JSON object carrying an `actions` key is processed
exactly as its inner array; and an action object without a `priority` key
parses with priority defaulted to 5. -/
theorem parse_actions_all_or_nothing
    (items : List JValue) (l obj : List (String × JValue)) (a : RedirectionAction) :
    ((∃ i ∈ items, parse_action_item i = none) →
      parse_actions_data (JValue.jarr items) = []) ∧
    (jlookup l "actions" = some (JValue.jarr items) →
      parse_actions_data (JValue.jobj l) = parse_actions_data (JValue.jarr items)) ∧
    (jlookup obj "priority" = none → parse_action_item (JValue.jobj obj) = some a →
      a.priority = JValue.jnum 5) := by
  refine ⟨?_, ?_, ?_⟩
  · intro h
    simp [parse_actions_data, pyIter, parse_action_list_eq_none h]
  · intro h
    simp [parse_actions_data, h]
  · intro h1 h2
    rcases hv : jlookup obj "valve_id" with _ | v <;>
      rcases hac : jlookup obj "action" with _ | ac <;>
        rcases hp : jlookup obj "percentage" with _ | p <;>
          rcases hd : jlookup obj "destination" with _ | d <;>
            rcases hr : jlookup obj "reason" with _ | r <;>
              simp [parse_action_item, hv, hac, hp, hd, hr, h1] at h2
    rw [← h2]

/-- Claim C10, witness: a reply containing one well-formed and one
key-missing action parses to `[]`; wrapping the well-formed action in an
`actions` object changes nothing; and the well-formed action (which has no
`priority` key) parses with priority 5. -/
theorem parse_actions_all_or_nothing_witness :
    parse_actions_data (JValue.jarr [JValue.jobj c10_good_fields, c10_bad]) = [] ∧
    parse_actions_data (JValue.jobj [("actions", JValue.jarr [JValue.jobj c10_good_fields])])
      = parse_actions_data (JValue.jarr [JValue.jobj c10_good_fields]) ∧
    c10_good_act.priority = JValue.jnum 5 :=
  ⟨(parse_actions_all_or_nothing [JValue.jobj c10_good_fields, c10_bad] [] [] c10_good_act).1
      ⟨c10_bad, List.mem_cons_of_mem _ (List.mem_cons_self _ _), rfl⟩,
   (parse_actions_all_or_nothing [JValue.jobj c10_good_fields]
      [("actions", JValue.jarr [JValue.jobj c10_good_fields])] [] c10_good_act).2.1 rfl,
   (parse_actions_all_or_nothing [] [] c10_good_fields c10_good_act).2.2 rfl rfl⟩

end WaterManagement
